import Mathlib

/-!
# Verification of the next-boost cached handler (`src/handler.ts`)

A shallow embedding of the cache-decision and render-and-write engine of
`src/handler.ts`.  HTTP requests, configurations and render results become
Lean structures; the handler `wrap` and its render-and-write pipeline become
pure functions that return a record of every observable effect: the request
passed to the plain fallback handler, the cache key used, the request object
handed to a configured `cacheKey` builder, the forced flag passed to the
cache-status resolver, the arguments of the render call, whether the rendered
response was written to the caller, the list of Cache Store operations
performed, and the final contents of the single-flight set (`SYNC_LOCK`).

External collaborators that the handler only calls (the cache-status resolver
`serveCache` of `cache-manager.ts`, the Render Worker, `gzipSync`,
`JSON.stringify`) are abstracted: `serveCache` and the renderer are function
parameters of `wrap`, and opaque byte transformations become constructors of
a symbolic buffer type `BufVal`.  Helpers of `utils.ts` whose source is not
part of the repository snapshot (`filterUrl`, `isZipped`) are modelled from
the specification and marked as such in their doc comments.
-/

/-- An incoming HTTP request, as the handler observes it: `req.url`,
`req.method` and `req.headers` (an association list, Node lower-cases the
names). -/
structure Req where
  url : String
  method : String
  headers : List (String × String)
deriving DecidableEq, Repr

/-- A cache rule of the configuration: `{ regex, ttl }`.  The compiled
regular expression is embedded as its test function on URLs
(`new RegExp(rule.regex).test(url)` in the source). -/
structure URLCacheRule where
  regex : String → Bool
  ttl : Int

/-- The handler configuration after `mergeConfig`: the fields of
`HandlerConfig` that the wrapped handler reads. -/
structure HandlerConfig where
  rules : List URLCacheRule
  paramFilter : Option (String → Bool)
  cacheKey : Option (Req → String)
  headersFilter : Option (List (String × String) → List (String × String))
  quiet : Bool

/-- The request descriptor handed to the Render Worker:
`{ path: req.url, headers: req.headers, method: req.method }`. -/
structure RenderArgs where
  path : String
  headers : List (String × String)
  method : String
deriving DecidableEq, Repr

/-- The Render Worker's response descriptor `{ statusCode, headers, body }`;
the body is a byte buffer, modelled as a list of bytes. -/
structure RenderResponse where
  statusCode : Int
  headers : List (String × String)
  body : List Nat
deriving DecidableEq, Repr

/-- The cache status returned by the cache-status resolver `serveCache`:
`hit`/`stale`/`miss` from the store's classification, or `force` for a
caller-requested refresh. -/
inductive ServeStatus where
  | hit
  | stale
  | miss
  | force
deriving DecidableEq, Repr

/-- The `{ status, stop }` record returned by `serveCache`. -/
structure ServeOutcome where
  status : ServeStatus
  stop : Bool
deriving DecidableEq, Repr

/-- A byte-buffer value written to the Cache Store.  Opaque byte
transformations of the source are kept symbolic: `plain b` is
`Buffer.from(rv.body)` stored verbatim, `gzipped b` is `gzipSync(body)`, and
`headerJson h` is `toBuffer(headersToSave)` (`Buffer.from(JSON.stringify h)`). -/
inductive BufVal where
  | plain (b : List Nat)
  | gzipped (b : List Nat)
  | headerJson (h : List (String × String))
deriving DecidableEq, Repr

/-- A single operation performed on the Cache Store. -/
inductive CacheOp where
  | set (key : String) (val : BufVal) (ttl : Int)
  | del (key : String)
deriving DecidableEq, Repr

/-- The Cache Store contents: an association list from key to
(value, ttl-recorded-at-set-time). -/
def Store := List (String × BufVal × Int)

/-- Apply one Cache Store operation: `set` is an unconditional upsert,
`del` removes the entry (no error if absent). -/
def applyOp (st : Store) : CacheOp → Store
  | CacheOp.set k v t => (k, v, t) :: List.filter (fun e => e.1 != k) st
  | CacheOp.del k => List.filter (fun e => e.1 != k) st

/-- Apply a list of Cache Store operations in order. -/
def applyOps (ops : List CacheOp) (st : Store) : Store :=
  ops.foldl applyOp st

/-- Look up a key in the Cache Store; returns the stored value and its TTL. -/
def storeLookup (st : Store) (k : String) : Option (BufVal × Int) :=
  (List.find? (fun e => e.1 == k) st).map (fun e => e.2)

/-- The TTL recorded for a key, if present. -/
def storeTtl (st : Store) (k : String) : Option Int :=
  (storeLookup st k).map (fun v => v.2)

/-- `matchRule(conf, req)` of `handler.ts`: requests whose method is not
`GET`/`HEAD` never match; otherwise the rules are scanned in order and the
first rule whose pattern matches a truthy `req.url` wins with its TTL. -/
def matchRuleLoop : List URLCacheRule → String → Bool × Int
  | [], _ => (false, 0)
  | r :: rs, url =>
      if url != "" && r.regex url then (true, r.ttl) else matchRuleLoop rs url

/-- `matchRule` entry point: the method guard
(`['GET','HEAD'].indexOf(req.method) === -1` returns `{matched: false, ttl: -1}`)
followed by the rule scan. -/
def matchRule (conf : HandlerConfig) (req : Req) : Bool × Int :=
  if !(req.method == "GET" || req.method == "HEAD") then (false, -1)
  else matchRuleLoop conf.rules req.url

/-- Split a character list at the first occurrence of `sep`: the part before
it and, when `sep` occurs, the part after it. -/
def splitFirst : List Char → Char → List Char × Option (List Char)
  | [], _ => ([], none)
  | c :: cs, sep =>
      if c = sep then ([], some cs)
      else
        let r := splitFirst cs sep
        (c :: r.1, r.2)

/-- Split a character list on every occurrence of `sep`. -/
def splitEvery : List Char → Char → List (List Char)
  | [], _ => [[]]
  | c :: cs, sep =>
      if c = sep then [] :: splitEvery cs sep
      else
        match splitEvery cs sep with
        | [] => [[c]]
        | l :: ls => (c :: l) :: ls

/-- Modelled from the spec: `filterUrl` of `utils.ts` is not part of the
repository snapshot.  Per the spec, `paramFilter` is a predicate
`(paramName) -> bool` controlling which query parameters survive into the
cache key; with no filter configured the URL is unchanged.  The query string
(after the first `?`) is split on `&`, each `name=value` segment is kept iff
the predicate holds of its name, and the path is rejoined with the surviving
parameters. -/
def filterUrl (url : String) (filter : Option (String → Bool)) : String :=
  match filter with
  | none => url
  | some f =>
      let s := splitFirst url.toList (Char.ofNat 63)
      match s.2 with
      | none => String.mk s.1
      | some qs =>
          let params := splitEvery qs (Char.ofNat 38)
          let kept := params.filter
            (fun seg => f (String.mk (splitFirst seg (Char.ofNat 61)).1))
          if kept.isEmpty then String.mk s.1
          else String.mk s.1 ++ "?" ++
            String.intercalate "&" (kept.map String.mk)

/-- Modelled from the spec: `isZipped` of `utils.ts` is not part of the
repository snapshot.  Per the spec, the stored body is the gzip-compressed
form unless the response headers already declared a content encoding, in
which case it is stored verbatim. -/
def isZipped (headers : List (String × String)) : Bool :=
  (headers.lookup "content-encoding").isSome

/-- The forced-refresh flag of `handler.ts` line 92:
`req.headers['x-cache-status'] === 'update'`. -/
def forcedFlag (headers : List (String × String)) : Bool :=
  headers.lookup "x-cache-status" == some "update"

/-- The request descriptor built for the render call (`handler.ts` line 108):
`{ path: req.url, headers: req.headers, method: req.method }`, where `req.url`
has been restored to its original, unfiltered value. -/
def renderArgsOf (req : Req) : RenderArgs :=
  { path := req.url, headers := req.headers, method := req.method }

/-- `conf.headersFilter(rv.headers)` when a headers filter is configured,
`rv.headers` otherwise (`handler.ts` lines 119-122). -/
def applyHeadersFilter (conf : HandlerConfig) (hs : List (String × String)) :
    List (String × String) :=
  match conf.headersFilter with
  | some f => f hs
  | none => hs

/-- Observable outcome of the render-and-write section (`handler.ts` lines
106-134): the render arguments, whether `serve(res, rv)` wrote the response,
the Cache Store operations performed in order, the final single-flight set,
and whether the render call rejected (the rejection propagates out of the
handler). -/
structure PipeResult where
  renderArgs : RenderArgs
  served : Bool
  cacheOps : List CacheOp
  lock : Finset String
  renderError : Bool
deriving DecidableEq

/-- The render-and-write section of `wrap` (`handler.ts` lines 106-134),
starting from `SYNC_LOCK.add(key)` and ending at `SYNC_LOCK.delete(key)`.
The Render Worker is the function parameter `render`; a rejected render call
is `Except.error` and aborts the section exactly where the source throws:
after the key was added to the single-flight set and before everything else.
On a successful render: the response is served unless the status is `stale`;
a 200 response with a non-empty body is persisted as the pair
`body:<key>`/`header:<key>` with the rule's TTL; otherwise, when the status
is `force`, both records are deleted; otherwise the store is untouched. -/
def pipeline (conf : HandlerConfig) (key : String) (ttl : Int)
    (status : ServeStatus) (render : RenderArgs → Except Unit RenderResponse)
    (req : Req) (lock0 : Finset String) : PipeResult :=
  let lock1 := insert key lock0
  let args := renderArgsOf req
  match render args with
  | Except.error _ =>
      { renderArgs := args, served := false, cacheOps := [],
        lock := lock1, renderError := true }
  | Except.ok rv =>
      let body := rv.body
      let ops :=
        if rv.statusCode == 200 && body.length != 0 then
          let headersToSave := applyHeadersFilter conf rv.headers
          let buf := if isZipped headersToSave then BufVal.plain body
                     else BufVal.gzipped body
          [CacheOp.set ("body:" ++ key) buf ttl,
           CacheOp.set ("header:" ++ key) (BufVal.headerJson headersToSave) ttl]
        else if status == ServeStatus.force then
          [CacheOp.del ("body:" ++ key), CacheOp.del ("header:" ++ key)]
        else []
      { renderArgs := args, served := status != ServeStatus.stale,
        cacheOps := ops, lock := lock1.erase key, renderError := false }

/-- Observable outcome of one invocation of the wrapped handler. -/
structure WrapResult where
  plainCalled : Option Req
  keyUsed : String
  keyArg : Option Req
  forcedPassed : Option Bool
  ttlUsed : Int
  status : Option ServeStatus
  renderCalled : Option RenderArgs
  served : Bool
  cacheOps : List CacheOp
  lock : Finset String
  renderError : Bool

/-- The wrapped request handler (`handler.ts` lines 78-136).  `sc` abstracts
`serveCache` of `cache-manager.ts` (external to this layer): it receives the
forced flag computed at line 92 and yields the `{ status, stop }` record.

Faithful to the source's mutation order: the URL is filtered in place, the
key is built (a configured `cacheKey` builder receives the request carrying
the *filtered* URL — recorded in `keyArg`), `matchRule` also sees the
filtered URL, then the original URL is restored before the unmatched
fallthrough and before the render call. -/
def wrap (conf : HandlerConfig) (sc : Bool → ServeOutcome)
    (render : RenderArgs → Except Unit RenderResponse)
    (req : Req) (lock0 : Finset String) : WrapResult :=
  let reqF : Req := { req with url := filterUrl req.url conf.paramFilter }
  let keyArg : Option Req := match conf.cacheKey with
    | some _ => some reqF
    | none => none
  let key : String := match conf.cacheKey with
    | some ck => ck reqF
    | none => reqF.url
  let m := matchRule conf reqF
  if !m.1 then
    { plainCalled := some req, keyUsed := key, keyArg := keyArg,
      forcedPassed := none, ttlUsed := m.2, status := none,
      renderCalled := none, served := false, cacheOps := [],
      lock := lock0, renderError := false }
  else
    let fc := forcedFlag req.headers
    let o := sc fc
    if o.stop then
      { plainCalled := none, keyUsed := key, keyArg := keyArg,
        forcedPassed := some fc, ttlUsed := m.2, status := some o.status,
        renderCalled := none, served := false, cacheOps := [],
        lock := lock0, renderError := false }
    else
      let p := pipeline conf key m.2 o.status render req lock0
      { plainCalled := none, keyUsed := key, keyArg := keyArg,
        forcedPassed := some fc, ttlUsed := m.2, status := some o.status,
        renderCalled := some p.renderArgs, served := p.served,
        cacheOps := p.cacheOps, lock := p.lock, renderError := p.renderError }

/-! ## Store lemmas -/

theorem body_key_ne_header_key (key : String) :
    ("body:" ++ key) ≠ ("header:" ++ key) := by
  intro h
  have hlen := congrArg String.length h
  rw [String.length_append, String.length_append] at hlen
  have h1 : ("body:" : String).length = 5 := rfl
  have h2 : ("header:" : String).length = 7 := rfl
  rw [h1, h2] at hlen
  omega

theorem find_key_filter (st : Store) (k k' : String) (h : k' ≠ k) :
    List.find? (fun e => e.1 == k') (List.filter (fun e => e.1 != k) st)
      = List.find? (fun e => e.1 == k') st := by
  induction st with
  | nil => rfl
  | cons e st ih =>
      cases hpe : (e.1 == k') with
      | true =>
          have he : e.1 = k' := eq_of_beq hpe
          have hek : (e.1 != k) = true := by simp [he, h]
          simp [List.filter_cons, hek, List.find?_cons, hpe]
      | false =>
          cases hek : (e.1 != k) with
          | true => simp [List.filter_cons, hek, List.find?_cons, hpe, ih]
          | false => simp [List.filter_cons, hek, List.find?_cons, hpe, ih]

theorem find_key_filter_self (st : Store) (k : String) :
    List.find? (fun e => e.1 == k) (List.filter (fun e => e.1 != k) st) = none := by
  induction st with
  | nil => rfl
  | cons e st ih =>
      cases hek : (e.1 != k) with
      | true =>
          have hne : e.1 ≠ k := by simpa using hek
          have hpe : (e.1 == k) = false := by simpa using hne
          simp [List.filter_cons, hek, List.find?_cons, hpe, ih]
      | false => simp [List.filter_cons, hek, ih]

theorem storeLookup_set_same (st : Store) (k : String) (v : BufVal) (t : Int) :
    storeLookup (applyOp st (CacheOp.set k v t)) k = some (v, t) := by
  simp [applyOp, storeLookup, List.find?]

theorem storeLookup_set_other (st : Store) (k k' : String) (v : BufVal) (t : Int)
    (h : k' ≠ k) :
    storeLookup (applyOp st (CacheOp.set k v t)) k' = storeLookup st k' := by
  simp only [applyOp, storeLookup, List.find?]
  have hk : (k == k') = false := by
    simp [Ne.symm h]
  simp only [hk]
  rw [find_key_filter st k k' h]

theorem storeLookup_del_self (st : Store) (k : String) :
    storeLookup (applyOp st (CacheOp.del k)) k = none := by
  simp only [applyOp, storeLookup]
  rw [find_key_filter_self]
  rfl

theorem storeLookup_del_other (st : Store) (k k' : String) (h : k' ≠ k) :
    storeLookup (applyOp st (CacheOp.del k)) k' = storeLookup st k' := by
  simp only [applyOp, storeLookup]
  rw [find_key_filter st k k' h]

/-! ## Request Classifier -/

theorem matchRuleLoop_eq_find (rules : List URLCacheRule) (url : String)
    (h : url ≠ "") :
    matchRuleLoop rules url =
      match rules.find? (fun r => r.regex url) with
      | some r => (true, r.ttl)
      | none => (false, 0) := by
  induction rules with
  | nil => rfl
  | cons r rs ih =>
      have hu : (url != "") = true := by simpa using h
      cases hr : r.regex url with
      | true => simp [matchRuleLoop, List.find?_cons, hu, hr]
      | false => simp [matchRuleLoop, List.find?_cons, hu, hr, ih]

/-- C7: for every `GET` or `HEAD` request, `matchRule` tests the URL against
the configured rules in order and returns `matched = true` with the TTL of the
first rule whose pattern matches; if no rule matches, or the method is neither
`GET` nor `HEAD`, it returns `matched = false`. -/
theorem matchRule_first_rule_wins (conf : HandlerConfig) (req : Req)
    (hurl : req.url ≠ "") :
    ((req.method = "GET" ∨ req.method = "HEAD") →
      (∀ r, conf.rules.find? (fun r => r.regex req.url) = some r →
        matchRule conf req = (true, r.ttl)) ∧
      (conf.rules.find? (fun r => r.regex req.url) = none →
        (matchRule conf req).1 = false)) ∧
    (¬(req.method = "GET" ∨ req.method = "HEAD") →
      (matchRule conf req).1 = false) := by
  constructor
  · intro hm
    have hcond : (!(req.method == "GET" || req.method == "HEAD")) = false := by
      rcases hm with hm | hm <;> simp [hm]
    constructor
    · intro r hr
      rw [matchRule, hcond, if_neg (by simp), matchRuleLoop_eq_find _ _ hurl, hr]
    · intro hr
      rw [matchRule, hcond, if_neg (by simp), matchRuleLoop_eq_find _ _ hurl, hr]
  · intro hm
    have hcond : (!(req.method == "GET" || req.method == "HEAD")) = true := by
      push_neg at hm
      simp [hm.1, hm.2]
    rw [matchRule, hcond, if_pos (by simp)]

/-- Witness for C7: a concrete two-rule configuration where the first rule
matching `/a` wins with its TTL 5, evaluated through the theorem. -/
theorem matchRule_first_rule_wins_witness :
    matchRule
      { rules := [{ regex := fun u => u == "/a", ttl := 5 },
                  { regex := fun _ => true, ttl := 7 }],
        paramFilter := none, cacheKey := none, headersFilter := none,
        quiet := true }
      { url := "/a", method := "GET", headers := [] } = (true, 5) :=
  ((matchRule_first_rule_wins
      { rules := [{ regex := fun u => u == "/a", ttl := 5 },
                  { regex := fun _ => true, ttl := 7 }],
        paramFilter := none, cacheKey := none, headersFilter := none,
        quiet := true }
      { url := "/a", method := "GET", headers := [] }
      (by decide)).1 (Or.inl rfl)).1 _ rfl

/-! ## Forced-refresh signal -/

/-- C10: the forced flag passed to the cache-status resolver on the matched
path is exactly `forcedFlag req.headers`, and that flag is `true` iff the
inbound `x-cache-status` request header has the value `update`; any other
value, or the absence of the header, yields `false`. -/
theorem forced_iff_update_header (conf : HandlerConfig)
    (sc : Bool → ServeOutcome) (render : RenderArgs → Except Unit RenderResponse)
    (req : Req) (lock0 : Finset String)
    (hm : (matchRule conf { req with url := filterUrl req.url conf.paramFilter }).1
            = true) :
    (wrap conf sc render req lock0).forcedPassed = some (forcedFlag req.headers) ∧
    (forcedFlag req.headers = true ↔
      req.headers.lookup "x-cache-status" = some "update") := by
  constructor
  · rw [wrap]
    simp only [hm, Bool.not_true]
    rw [if_neg (by simp)]
    split <;> rfl
  · simp [forcedFlag]

/-- Witness for C10: a matched `GET /hello` carrying `x-cache-status: update`
passes `forced = true` to the resolver; the same request with the header value
`force` passes `forced = false` (evaluated separately). -/
theorem forced_iff_update_header_witness :
    (wrap
      { rules := [{ regex := fun _ => true, ttl := 1 }],
        paramFilter := none, cacheKey := none, headersFilter := none,
        quiet := true }
      (fun _ => { status := ServeStatus.miss, stop := false })
      (fun _ => Except.error ())
      { url := "/hello", method := "GET",
        headers := [("x-cache-status", "update")] }
      ∅).forcedPassed = some true ∧
    forcedFlag [("x-cache-status", "force")] = false := by
  constructor
  · exact (forced_iff_update_header _ _ _ _ _ (by decide)).1
  · decide

/-! ## Render-and-write pipeline -/

theorem pipeline_renderArgs_eq (conf : HandlerConfig) (key : String) (ttl : Int)
    (status : ServeStatus) (render : RenderArgs → Except Unit RenderResponse)
    (req : Req) (lock0 : Finset String) :
    (pipeline conf key ttl status render req lock0).renderArgs = renderArgsOf req := by
  rw [pipeline]
  cases render (renderArgsOf req) <;> rfl

/-- C8: when the render call succeeds, the rendered response is written to the
caller exactly when the cache status is not `stale`; for `stale` the pipeline
performs no response write (`serve(res, rv)` is skipped). -/
theorem pipeline_serves_iff_not_stale (conf : HandlerConfig) (key : String)
    (ttl : Int) (status : ServeStatus)
    (render : RenderArgs → Except Unit RenderResponse) (req : Req)
    (lock0 : Finset String) (rv : RenderResponse)
    (hrv : render (renderArgsOf req) = Except.ok rv) :
    (pipeline conf key ttl status render req lock0).served
      = (status != ServeStatus.stale) := by
  rw [pipeline, hrv]

/-- Witness for C8: a successful render under status `stale` writes nothing,
while the same render under status `miss` writes the response. -/
theorem pipeline_serves_iff_not_stale_witness :
    (pipeline
      { rules := [], paramFilter := none, cacheKey := none,
        headersFilter := none, quiet := true }
      "/hello" 1 ServeStatus.stale
      (fun _ => Except.ok { statusCode := 200, headers := [], body := [104] })
      { url := "/hello", method := "GET", headers := [] } ∅).served = false ∧
    (pipeline
      { rules := [], paramFilter := none, cacheKey := none,
        headersFilter := none, quiet := true }
      "/hello" 1 ServeStatus.miss
      (fun _ => Except.ok { statusCode := 200, headers := [], body := [104] })
      { url := "/hello", method := "GET", headers := [] } ∅).served = true := by
  constructor
  · exact pipeline_serves_iff_not_stale _ _ _ _ _ _ _ _ rfl
  · exact pipeline_serves_iff_not_stale _ _ _ _ _ _ _ _ rfl

/-- C5: a render producing `statusCode = 200` with a non-empty body makes the
pipeline write the pair `body:<key>` and `header:<key>`, both with the rule's
TTL: the operations performed are exactly the two `set`s, and after applying
them to any store both records are present with TTL `ttl`. -/
theorem pipeline_persists_pair (conf : HandlerConfig) (key : String) (ttl : Int)
    (status : ServeStatus) (render : RenderArgs → Except Unit RenderResponse)
    (req : Req) (lock0 : Finset String) (rv : RenderResponse)
    (hrv : render (renderArgsOf req) = Except.ok rv)
    (h200 : rv.statusCode = 200) (hbody : rv.body ≠ []) :
    (pipeline conf key ttl status render req lock0).cacheOps =
      [CacheOp.set ("body:" ++ key)
         (if isZipped (applyHeadersFilter conf rv.headers) then BufVal.plain rv.body
          else BufVal.gzipped rv.body) ttl,
       CacheOp.set ("header:" ++ key)
         (BufVal.headerJson (applyHeadersFilter conf rv.headers)) ttl] ∧
    ∀ st : Store,
      storeTtl (applyOps (pipeline conf key ttl status render req lock0).cacheOps st)
        ("body:" ++ key) = some ttl ∧
      storeTtl (applyOps (pipeline conf key ttl status render req lock0).cacheOps st)
        ("header:" ++ key) = some ttl := by
  have hcond : (rv.statusCode == 200 && rv.body.length != 0) = true := by
    rw [h200]
    simp [List.length_eq_zero, hbody]
  have hops : (pipeline conf key ttl status render req lock0).cacheOps =
      [CacheOp.set ("body:" ++ key)
         (if isZipped (applyHeadersFilter conf rv.headers) then BufVal.plain rv.body
          else BufVal.gzipped rv.body) ttl,
       CacheOp.set ("header:" ++ key)
         (BufVal.headerJson (applyHeadersFilter conf rv.headers)) ttl] := by
    rw [pipeline, hrv]
    simp only [hcond, if_true]
  refine ⟨hops, ?_⟩
  intro st
  rw [hops]
  constructor
  · simp only [applyOps, List.foldl_cons, List.foldl_nil]
    rw [storeTtl, storeLookup_set_other _ _ _ _ _ (body_key_ne_header_key key),
        storeLookup_set_same]
    rfl
  · simp only [applyOps, List.foldl_cons, List.foldl_nil]
    rw [storeTtl, storeLookup_set_same]
    rfl

/-- Witness for C5: a concrete 200 render with body `"h"` writes both records
with TTL 3, and both are found with that TTL in the (initially empty) store. -/
theorem pipeline_persists_pair_witness :
    storeTtl
      (applyOps
        (pipeline
          { rules := [], paramFilter := none, cacheKey := none,
            headersFilter := none, quiet := true }
          "/hello" 3 ServeStatus.miss
          (fun _ => Except.ok { statusCode := 200, headers := [], body := [104] })
          { url := "/hello", method := "GET", headers := [] } ∅).cacheOps [])
      "body:/hello" = some 3 ∧
    storeTtl
      (applyOps
        (pipeline
          { rules := [], paramFilter := none, cacheKey := none,
            headersFilter := none, quiet := true }
          "/hello" 3 ServeStatus.miss
          (fun _ => Except.ok { statusCode := 200, headers := [], body := [104] })
          { url := "/hello", method := "GET", headers := [] } ∅).cacheOps [])
      "header:/hello" = some 3 :=
  (pipeline_persists_pair
    { rules := [], paramFilter := none, cacheKey := none,
      headersFilter := none, quiet := true }
    "/hello" 3 ServeStatus.miss
    (fun _ => Except.ok { statusCode := 200, headers := [], body := [104] })
    { url := "/hello", method := "GET", headers := [] } ∅
    { statusCode := 200, headers := [], body := [104] }
    rfl rfl (by decide)).2 []

/-- C6: when the cache status is `force` and the render produced an empty
body, the pipeline deletes both `body:<key>` and `header:<key>`: the
operations performed are exactly the two `del`s, and after applying them to
any store — including one where both records existed — both are absent. -/
theorem pipeline_force_empty_deletes_pair (conf : HandlerConfig) (key : String)
    (ttl : Int) (render : RenderArgs → Except Unit RenderResponse) (req : Req)
    (lock0 : Finset String) (rv : RenderResponse)
    (hrv : render (renderArgsOf req) = Except.ok rv)
    (hbody : rv.body = []) :
    (pipeline conf key ttl ServeStatus.force render req lock0).cacheOps =
      [CacheOp.del ("body:" ++ key), CacheOp.del ("header:" ++ key)] ∧
    ∀ st : Store,
      storeLookup
        (applyOps (pipeline conf key ttl ServeStatus.force render req lock0).cacheOps st)
        ("body:" ++ key) = none ∧
      storeLookup
        (applyOps (pipeline conf key ttl ServeStatus.force render req lock0).cacheOps st)
        ("header:" ++ key) = none := by
  have hcond : (rv.statusCode == 200 && rv.body.length != 0) = false := by
    simp [hbody]
  have hops : (pipeline conf key ttl ServeStatus.force render req lock0).cacheOps =
      [CacheOp.del ("body:" ++ key), CacheOp.del ("header:" ++ key)] := by
    rw [pipeline, hrv]
    simp only [hcond, Bool.false_eq_true, if_false]
    rfl
  refine ⟨hops, ?_⟩
  intro st
  rw [hops]
  constructor
  · simp only [applyOps, List.foldl_cons, List.foldl_nil]
    rw [storeLookup_del_other _ _ _ (body_key_ne_header_key key),
        storeLookup_del_self]
  · simp only [applyOps, List.foldl_cons, List.foldl_nil]
    rw [storeLookup_del_self]

/-- Witness for C6: a forced refresh whose render returns 200 with an empty
body deletes both records; in a store that previously held both records for
`/hello`, both are absent afterwards. -/
theorem pipeline_force_empty_deletes_pair_witness :
    storeLookup
      (applyOps
        (pipeline
          { rules := [], paramFilter := none, cacheKey := none,
            headersFilter := none, quiet := true }
          "/hello" 3 ServeStatus.force
          (fun _ => Except.ok { statusCode := 200, headers := [], body := [] })
          { url := "/hello", method := "GET", headers := [] } ∅).cacheOps
        [("body:/hello", BufVal.plain [104], 3),
         ("header:/hello", BufVal.headerJson [], 3)])
      "body:/hello" = none ∧
    storeLookup
      (applyOps
        (pipeline
          { rules := [], paramFilter := none, cacheKey := none,
            headersFilter := none, quiet := true }
          "/hello" 3 ServeStatus.force
          (fun _ => Except.ok { statusCode := 200, headers := [], body := [] })
          { url := "/hello", method := "GET", headers := [] } ∅).cacheOps
        [("body:/hello", BufVal.plain [104], 3),
         ("header:/hello", BufVal.headerJson [], 3)])
      "header:/hello" = none :=
  (pipeline_force_empty_deletes_pair
    { rules := [], paramFilter := none, cacheKey := none,
      headersFilter := none, quiet := true }
    "/hello" 3
    (fun _ => Except.ok { statusCode := 200, headers := [], body := [] })
    { url := "/hello", method := "GET", headers := [] } ∅
    { statusCode := 200, headers := [], body := [] }
    rfl rfl).2
    [("body:/hello", BufVal.plain [104], 3),
     ("header:/hello", BufVal.headerJson [], 3)]

/-- Counterexample for C2: a forced refresh whose render returns a non-200
status code (500) with a *non-empty* body does not leave the Cache Store
untouched — the `else if (status === 'force')` branch of `handler.ts` checks
only the status, not body emptiness, and deletes both records. -/
theorem pipeline_untouched_counterexample :
    (pipeline
      { rules := [], paramFilter := none, cacheKey := none,
        headersFilter := none, quiet := true }
      "/x" 1 ServeStatus.force
      (fun _ => Except.ok { statusCode := 500, headers := [], body := [104] })
      { url := "/x", method := "GET", headers := [] } ∅).cacheOps =
      [CacheOp.del "body:/x", CacheOp.del "header:/x"] ∧
    (pipeline
      { rules := [], paramFilter := none, cacheKey := none,
        headersFilter := none, quiet := true }
      "/x" 1 ServeStatus.force
      (fun _ => Except.ok { statusCode := 500, headers := [], body := [104] })
      { url := "/x", method := "GET", headers := [] } ∅).cacheOps ≠ [] := by
  constructor
  · rfl
  · decide

/-- C2 (amended): for every render outcome other than (`statusCode = 200` with
non-empty body) and other than status `force` — whatever the body — the
pipeline leaves the Cache Store untouched: no `set` and no `del` is
performed. -/
theorem pipeline_untouched_amended (conf : HandlerConfig) (key : String)
    (ttl : Int) (status : ServeStatus)
    (render : RenderArgs → Except Unit RenderResponse) (req : Req)
    (lock0 : Finset String) (rv : RenderResponse)
    (hrv : render (renderArgsOf req) = Except.ok rv)
    (hnot : ¬(rv.statusCode = 200 ∧ rv.body ≠ []))
    (hnf : status ≠ ServeStatus.force) :
    (pipeline conf key ttl status render req lock0).cacheOps = [] := by
  have hcond : (rv.statusCode == 200 && rv.body.length != 0) = false := by
    rcases not_and_or.mp hnot with h | h
    · simp [h]
    · push_neg at h
      simp [h]
  have hsf : (status == ServeStatus.force) = false := by
    simp [hnf]
  rw [pipeline, hrv]
  simp only [hcond, hsf, Bool.false_eq_true, if_false]

/-- Witness for C2 (amended): a miss whose render returns 404 with a non-empty
body performs no Cache Store operation. -/
theorem pipeline_untouched_amended_witness :
    (pipeline
      { rules := [], paramFilter := none, cacheKey := none,
        headersFilter := none, quiet := true }
      "/x" 1 ServeStatus.miss
      (fun _ => Except.ok { statusCode := 404, headers := [], body := [104] })
      { url := "/x", method := "GET", headers := [] } ∅).cacheOps = [] :=
  pipeline_untouched_amended
    { rules := [], paramFilter := none, cacheKey := none,
      headersFilter := none, quiet := true }
    "/x" 1 ServeStatus.miss
    (fun _ => Except.ok { statusCode := 404, headers := [], body := [104] })
    { url := "/x", method := "GET", headers := [] } ∅
    { statusCode := 404, headers := [], body := [104] }
    rfl (by decide) (by decide)

/-! ## Single-flight set -/

/-- C1 (code bug): a matched `GET /hello` whose render call rejects leaves the
handler through the propagated exception *before* `SYNC_LOCK.delete(key)`
(`handler.ts` line 134 is not in a `finally` block), so the key `/hello`
remains a member of the single-flight set, contradicting the required
unconditional release. -/
theorem syncLock_leaks_on_render_error :
    (wrap
      { rules := [{ regex := fun _ => true, ttl := 1 }], paramFilter := none,
        cacheKey := none, headersFilter := none, quiet := true }
      (fun _ => { status := ServeStatus.miss, stop := false })
      (fun _ => Except.error ())
      { url := "/hello", method := "GET", headers := [] } ∅).renderError = true ∧
    "/hello" ∈
      (wrap
        { rules := [{ regex := fun _ => true, ttl := 1 }], paramFilter := none,
          cacheKey := none, headersFilter := none, quiet := true }
        (fun _ => { status := ServeStatus.miss, stop := false })
        (fun _ => Except.error ())
        { url := "/hello", method := "GET", headers := [] } ∅).lock := by
  constructor
  · rfl
  · decide

/-- Contrast lemma for C1: with a succeeding render on otherwise identical
inputs the key is removed, showing the leak is specific to the rejection
path. -/
theorem syncLock_released_on_render_ok (conf : HandlerConfig) (key : String)
    (ttl : Int) (status : ServeStatus)
    (render : RenderArgs → Except Unit RenderResponse) (req : Req)
    (lock0 : Finset String) (rv : RenderResponse)
    (hrv : render (renderArgsOf req) = Except.ok rv) :
    key ∉ (pipeline conf key ttl status render req lock0).lock := by
  rw [pipeline, hrv]
  simp

/-! ## Cache-key derivation -/

/-- Counterexample for C3: with `paramFilter` dropping `p1` and a configured
`cacheKey` builder, the request object passed to the builder carries the
*filtered* URL `/x` — not the original `/x?p1=1` — because `handler.ts` line
82 runs after the in-place filtering of line 81 and before the restore of
line 87. -/
theorem cacheKey_arg_counterexample :
    ((wrap
      { rules := [{ regex := fun _ => true, ttl := 1 }],
        paramFilter := some (fun p => p != "p1"),
        cacheKey := some (fun r => r.url), headersFilter := none,
        quiet := true }
      (fun _ => { status := ServeStatus.miss, stop := false })
      (fun _ => Except.error ())
      { url := "/x?p1=1", method := "GET", headers := [] }
      ∅).keyArg.map Req.url) = some "/x" ∧
    ("/x" : String) ≠ "/x?p1=1" := by
  constructor
  · rfl
  · decide

/-- C3 (amended): when a `cacheKey` builder is configured it is invoked with
the request *after* query-parameter filtering: the request object passed to
`conf.cacheKey` has `url = filterUrl originalUrl paramFilter`, and the
resulting key is the builder applied to that filtered request. -/
theorem cacheKey_receives_filtered_request (conf : HandlerConfig)
    (sc : Bool → ServeOutcome) (render : RenderArgs → Except Unit RenderResponse)
    (req : Req) (lock0 : Finset String) (ck : Req → String)
    (hck : conf.cacheKey = some ck) :
    (wrap conf sc render req lock0).keyArg =
      some { req with url := filterUrl req.url conf.paramFilter } ∧
    (wrap conf sc render req lock0).keyUsed =
      ck { req with url := filterUrl req.url conf.paramFilter } := by
  constructor
  · rw [wrap]
    simp only [hck]
    split
    · rfl
    · split <;> rfl
  · rw [wrap]
    simp only [hck]
    split
    · rfl
    · split <;> rfl

/-- Witness for C3 (amended): the builder `req.url ++ "_001"` with no
`paramFilter` yields the key `/hello_001`. -/
theorem cacheKey_receives_filtered_request_witness :
    (wrap
      { rules := [{ regex := fun _ => true, ttl := 1 }], paramFilter := none,
        cacheKey := some (fun r => r.url ++ "_001"), headersFilter := none,
        quiet := true }
      (fun _ => { status := ServeStatus.miss, stop := false })
      (fun _ => Except.error ())
      { url := "/hello", method := "GET", headers := [] } ∅).keyUsed
      = "/hello_001" := by
  rw [(cacheKey_receives_filtered_request
    { rules := [{ regex := fun _ => true, ttl := 1 }], paramFilter := none,
      cacheKey := some (fun r => r.url ++ "_001"), headersFilter := none,
      quiet := true }
    (fun _ => { status := ServeStatus.miss, stop := false })
    (fun _ => Except.error ())
    { url := "/hello", method := "GET", headers := [] } ∅
    (fun r => r.url ++ "_001") rfl).2]
  rfl

/-- C4: with the default key derivation (no `cacheKey` builder), the key is
the URL after `paramFilter` filtering, while the render call and any
fallthrough to the plain handler see the original, unfiltered URL: the
render descriptor's `path` and the request handed to the plain handler both
equal `req.url` as it arrived. -/
theorem key_filtered_render_unfiltered (conf : HandlerConfig)
    (sc : Bool → ServeOutcome) (render : RenderArgs → Except Unit RenderResponse)
    (req : Req) (lock0 : Finset String)
    (hck : conf.cacheKey = none) :
    (wrap conf sc render req lock0).keyUsed = filterUrl req.url conf.paramFilter ∧
    ((wrap conf sc render req lock0).renderCalled = none ∨
     (wrap conf sc render req lock0).renderCalled = some (renderArgsOf req)) ∧
    (renderArgsOf req).path = req.url ∧
    ∀ q, (wrap conf sc render req lock0).plainCalled = some q → q.url = req.url := by
  refine ⟨?_, ?_, rfl, ?_⟩
  · rw [wrap]
    simp only [hck]
    split
    · rfl
    · split <;> rfl
  · rw [wrap]
    simp only [hck]
    split
    · exact Or.inl rfl
    · split
      · exact Or.inl rfl
      · exact Or.inr (by rw [pipeline_renderArgs_eq])
  · intro q hq
    rw [wrap] at hq
    simp only [hck] at hq
    split at hq
    · have h : req = q := by simpa using hq
      rw [← h]
    · split at hq <;> simp at hq

/-- Witness for C4: with `p1` filtered out, `GET /x?p1=1&p2=2` gets the cache
key `/x?p2=2` while the render descriptor still carries the full URL. -/
theorem key_filtered_render_unfiltered_witness :
    (wrap
      { rules := [{ regex := fun _ => true, ttl := 1 }],
        paramFilter := some (fun p => p != "p1"), cacheKey := none,
        headersFilter := none, quiet := true }
      (fun _ => { status := ServeStatus.miss, stop := false })
      (fun _ => Except.ok { statusCode := 200, headers := [], body := [104] })
      { url := "/x?p1=1&p2=2", method := "GET", headers := [] } ∅).keyUsed
      = "/x?p2=2" ∧
    (wrap
      { rules := [{ regex := fun _ => true, ttl := 1 }],
        paramFilter := some (fun p => p != "p1"), cacheKey := none,
        headersFilter := none, quiet := true }
      (fun _ => { status := ServeStatus.miss, stop := false })
      (fun _ => Except.ok { statusCode := 200, headers := [], body := [104] })
      { url := "/x?p1=1&p2=2", method := "GET", headers := [] } ∅).renderCalled
      = some { path := "/x?p1=1&p2=2", headers := [], method := "GET" } := by
  constructor
  · rw [(key_filtered_render_unfiltered
      { rules := [{ regex := fun _ => true, ttl := 1 }],
        paramFilter := some (fun p => p != "p1"), cacheKey := none,
        headersFilter := none, quiet := true }
      (fun _ => { status := ServeStatus.miss, stop := false })
      (fun _ => Except.ok { statusCode := 200, headers := [], body := [104] })
      { url := "/x?p1=1&p2=2", method := "GET", headers := [] } ∅ rfl).1]
    rfl
  · rfl

/-! ## Unmatched requests -/

/-- C9: a request whose method is not `GET`/`HEAD`, or whose (filtered) URL
matches no configured rule, is answered by the plain fallback handler (with
the original request) and produces no Cache Store operation, no render call,
and no change to the single-flight set. -/
theorem unmatched_no_effects (conf : HandlerConfig) (sc : Bool → ServeOutcome)
    (render : RenderArgs → Except Unit RenderResponse) (req : Req)
    (lock0 : Finset String)
    (h : ¬(req.method = "GET" ∨ req.method = "HEAD") ∨
         (matchRule conf { req with url := filterUrl req.url conf.paramFilter }).1
           = false) :
    (wrap conf sc render req lock0).plainCalled = some req ∧
    (wrap conf sc render req lock0).cacheOps = [] ∧
    (wrap conf sc render req lock0).lock = lock0 ∧
    (wrap conf sc render req lock0).renderCalled = none := by
  have hm : (matchRule conf { req with url := filterUrl req.url conf.paramFilter }).1
      = false := by
    rcases h with h | h
    · push_neg at h
      simp [matchRule, h.1, h.2]
    · exact h
  have hc : (!(matchRule conf
      { req with url := filterUrl req.url conf.paramFilter }).1) = true := by
    rw [hm]
    rfl
  rw [wrap, if_pos hc]
  exact ⟨rfl, rfl, rfl, rfl⟩

/-- Witness for C9: a `DELETE /404` request falls through to the plain handler
and changes neither the store trace nor the single-flight set. -/
theorem unmatched_no_effects_witness :
    (wrap
      { rules := [{ regex := fun _ => true, ttl := 1 }], paramFilter := none,
        cacheKey := none, headersFilter := none, quiet := true }
      (fun _ => { status := ServeStatus.miss, stop := false })
      (fun _ => Except.error ())
      { url := "/404", method := "DELETE", headers := [] }
      { "/busy" }).plainCalled
      = some { url := "/404", method := "DELETE", headers := [] } ∧
    (wrap
      { rules := [{ regex := fun _ => true, ttl := 1 }], paramFilter := none,
        cacheKey := none, headersFilter := none, quiet := true }
      (fun _ => { status := ServeStatus.miss, stop := false })
      (fun _ => Except.error ())
      { url := "/404", method := "DELETE", headers := [] }
      { "/busy" }).cacheOps = [] ∧
    (wrap
      { rules := [{ regex := fun _ => true, ttl := 1 }], paramFilter := none,
        cacheKey := none, headersFilter := none, quiet := true }
      (fun _ => { status := ServeStatus.miss, stop := false })
      (fun _ => Except.error ())
      { url := "/404", method := "DELETE", headers := [] }
      { "/busy" }).lock = { "/busy" } ∧
    (wrap
      { rules := [{ regex := fun _ => true, ttl := 1 }], paramFilter := none,
        cacheKey := none, headersFilter := none, quiet := true }
      (fun _ => { status := ServeStatus.miss, stop := false })
      (fun _ => Except.error ())
      { url := "/404", method := "DELETE", headers := [] }
      { "/busy" }).renderCalled = none :=
  unmatched_no_effects
    { rules := [{ regex := fun _ => true, ttl := 1 }], paramFilter := none,
      cacheKey := none, headersFilter := none, quiet := true }
    (fun _ => { status := ServeStatus.miss, stop := false })
    (fun _ => Except.error ())
    { url := "/404", method := "DELETE", headers := [] }
    { "/busy" } (Or.inl (by decide))
